import Mathlib

/-!
Verification of the rule-violation catalog and verification harness described
in the repository's design documentation, together with an embedding of the
repository's intentional-violation source files.

The harness (Catalog, Build Adapter, Verifier) is described in the design
documentation but is not present as code in the repository, so its operations
are modelled from the spec.  The violation snippets themselves
(misra_violations.c, cert_c_violations.c, autosar_violations.cpp,
cert_cpp_violations.cpp, misra_cpp_violations.cpp) are embedded from their
sources.
-/

namespace Harness

/-- Modelled from the spec: coding-standard enumeration of the data model
(MISRA-C, CERT-C, MISRA-CPP, CERT-CPP, AUTOSAR-CPP); the repository has no
harness code. -/
inductive Standard
  | misraC
  | certC
  | misraCpp
  | certCpp
  | autosarCpp
  deriving DecidableEq, Repr

/-- Modelled from the spec: ViolationCase record (id, standard, rule_code,
source_path, expected_symbol as a line range, severity_tag); the repository
has no harness code. -/
structure ViolationCase where
  id : String
  standard : Standard
  rule_code : String
  source_path : String
  expected_lo : Nat
  expected_hi : Nat
  severity_tag : String
  deriving DecidableEq, Repr

/-- Modelled from the spec: Finding record produced by the external analyzer
(rule_code, file, line, message); the repository has no harness code. -/
structure Finding where
  rule_code : String
  file : String
  line : Nat
  message : String
  deriving DecidableEq, Repr

/-- Modelled from the spec: per-case outcome enumeration; the repository has
no harness code. -/
inductive Outcome
  | PASS
  | MISSED
  | BUILD_FAILED
  | TOOL_ERROR
  deriving DecidableEq, Repr

/-- Modelled from the spec: VerificationResult record, one per ViolationCase;
the repository has no harness code. -/
structure VerificationResult where
  case_id : String
  expected_rule_code : String
  matched : Bool
  matching_findings : List Finding
  outcome : Outcome
  deriving DecidableEq, Repr

/-- Modelled from the spec: BuildArtifact record produced by the compiler
capability for one source file; the repository has no harness code. -/
structure BuildArtifact where
  source_path : String
  build_succeeded : Bool
  build_diagnostics : List String
  deriving DecidableEq, Repr

/-- Modelled from the spec: ConfigError, raised by catalog load on a duplicate
case id or a missing source_path; the repository has no harness code. -/
inductive ConfigError
  | duplicateId (i : String)
  | missingPath (p : String)
  deriving DecidableEq, Repr

/-- Modelled from the spec: first case id that also occurs later in the entry
list, if any (detects duplicate ids during load). -/
def firstDupId : List ViolationCase → Option String
  | [] => none
  | c :: rest =>
    if rest.any (fun c2 => c2.id == c.id) then some c.id else firstDupId rest

/-- Modelled from the spec: first referenced source_path that does not exist
on the filesystem `fs` (given as the list of existing paths), if any. -/
def firstMissingPath (fs : List String) : List ViolationCase → Option String
  | [] => none
  | c :: rest =>
    if fs.contains c.source_path then firstMissingPath fs rest
    else some c.source_path

/-- Modelled from the spec: Catalog.load returns the entries unchanged and in
their given order (stable iteration), failing with ConfigError when two
entries share an id or a referenced source_path does not exist. -/
def load (entries : List ViolationCase) (fs : List String) :
    Except ConfigError (List ViolationCase) :=
  match firstDupId entries with
  | some i => .error (.duplicateId i)
  | none =>
    match firstMissingPath fs entries with
    | some p => .error (.missingPath p)
    | none => .ok entries

/-- Modelled from the spec: a Finding matches a ViolationCase iff its
rule_code equals the case's rule_code and its file matches the case's
source_path; the finding's line is advisory and is not consulted. -/
def findingMatches (c : ViolationCase) (f : Finding) : Bool :=
  f.rule_code == c.rule_code && f.file == c.source_path

/-- Modelled from the spec: reconcile one case whose artifact built
successfully against the analyzer's findings — PASS iff at least one matching
Finding exists (ANY-match semantics), MISSED otherwise. -/
def reconcileCase (c : ViolationCase) (findings : List Finding) :
    VerificationResult :=
  let ms := findings.filter (findingMatches c)
  { case_id := c.id
    expected_rule_code := c.rule_code
    matched := !ms.isEmpty
    matching_findings := ms
    outcome := if ms.isEmpty then .MISSED else .PASS }

/-- Modelled from the spec: reconcile(cases, findings), one
VerificationResult per ViolationCase, in catalog order. -/
def reconcile (cases : List ViolationCase) (findings : List Finding) :
    List VerificationResult :=
  cases.map (fun c => reconcileCase c findings)

/-- Modelled from the spec: the terminal per-case result carrying a failure
outcome (BUILD_FAILED or TOOL_ERROR) with no matching findings. -/
def failedResult (c : ViolationCase) (o : Outcome) : VerificationResult :=
  { case_id := c.id
    expected_rule_code := c.rule_code
    matched := false
    matching_findings := []
    outcome := o }

/-- Modelled from the spec: process one case given the compiler capability
(`compile`, per source file) and the analyzer capability (`analyze`, the
findings the analyzer reports for one built source file, `none` standing for
a ToolError).  A case in a failed unit resolves to BUILD_FAILED without
consulting the analyzer; an analyzer failure resolves to TOOL_ERROR;
otherwise the case is reconciled. -/
def runCase (compile : String → BuildArtifact)
    (analyze : String → Option (List Finding)) (c : ViolationCase) :
    VerificationResult :=
  if (compile c.source_path).build_succeeded then
    match analyze c.source_path with
    | some findings => reconcileCase c findings
    | none => failedResult c .TOOL_ERROR
  else failedResult c .BUILD_FAILED

/-- Modelled from the spec: process every loaded case; the run continues to
completion, producing exactly one VerificationResult per case. -/
def runCases (compile : String → BuildArtifact)
    (analyze : String → Option (List Finding)) (cases : List ViolationCase) :
    List VerificationResult :=
  cases.map (runCase compile analyze)

/-- Modelled from the spec: exit code from the per-case outcomes — 0 if all
cases PASS, otherwise 1 (any MISSED or TOOL_ERROR exits 1; the error-handling
design requires a non-zero exit code on any failure, so a run whose only
failures are BUILD_FAILED also exits 1). -/
def exitCodeOfOutcomes (os : List Outcome) : Nat :=
  if os.all (fun o => o == .PASS) then 0 else 1

/-- Modelled from the spec: the whole run — load the catalog, halting on
ConfigError before any case is processed, else process every case. -/
def harness (entries : List ViolationCase) (fs : List String)
    (compile : String → BuildArtifact)
    (analyze : String → Option (List Finding)) :
    Except ConfigError (List VerificationResult) :=
  match load entries fs with
  | .error e => .error e
  | .ok cases => .ok (runCases compile analyze cases)

/-- Modelled from the spec: the per-case results actually produced by a run
(none when the run halts with ConfigError). -/
def harnessResults (entries : List ViolationCase) (fs : List String)
    (compile : String → BuildArtifact)
    (analyze : String → Option (List Finding)) : List VerificationResult :=
  match harness entries fs compile analyze with
  | .error _ => []
  | .ok rs => rs

/-- Modelled from the spec: process exit code — 2 on ConfigError, else
determined by the per-case outcomes. -/
def harnessExitCode (entries : List ViolationCase) (fs : List String)
    (compile : String → BuildArtifact)
    (analyze : String → Option (List Finding)) : Nat :=
  match harness entries fs compile analyze with
  | .error _ => 2
  | .ok rs => exitCodeOfOutcomes (rs.map (fun r => r.outcome))

/-- Modelled from the spec: force a BuildError on one source file, leaving
the compiler capability unchanged on every other file. -/
def forceFail (p0 : String) (compile : String → BuildArtifact) :
    String → BuildArtifact :=
  fun p =>
    if p == p0 then
      { source_path := p, build_succeeded := false,
        build_diagnostics := ["forced build error"] }
    else compile p

end Harness

namespace Repo

/-- One repository source file, embedded as the names of its deliberately
rule-violating constructs that are functions, those that are file-scope
declarations rather than functions, and the functions its `main` calls. -/
structure SourceFile where
  path : String
  violationFunctions : List String
  violationDecls : List String
  mainCalls : List String
  deriving DecidableEq, Repr

/-- src/c/misra_violations.c: twelve violation functions called by main, plus
the Rule 8.7 violating global object `misra_rule_8_7_global` (line 146). -/
def misra_violations_c : SourceFile :=
  { path := "src/c/misra_violations.c"
    violationFunctions :=
      ["misra_rule_2_2", "misra_rule_8_4_func", "misra_rule_10_1",
       "misra_rule_10_3", "misra_rule_11_3", "misra_rule_12_1",
       "misra_rule_14_4", "misra_rule_15_6", "misra_rule_17_7",
       "misra_rule_21_3", "misra_rule_21_6", "misra_dir_4_6"]
    violationDecls := ["misra_rule_8_7_global"]
    mainCalls :=
      ["misra_rule_2_2", "misra_rule_8_4_func", "misra_rule_10_1",
       "misra_rule_10_3", "misra_rule_11_3", "misra_rule_12_1",
       "misra_rule_14_4", "misra_rule_15_6", "misra_rule_17_7",
       "misra_rule_21_3", "misra_rule_21_6", "misra_dir_4_6"] }

/-- src/c/cert_c_violations.c: eleven violation functions, all called by
main. -/
def cert_c_violations_c : SourceFile :=
  { path := "src/c/cert_c_violations.c"
    violationFunctions :=
      ["cert_exp30_c", "cert_exp33_c", "cert_arr30_c", "cert_mem30_c",
       "cert_mem35_c", "cert_str31_c", "cert_err33_c", "cert_sig30_c",
       "cert_msc32_c", "cert_int31_c", "cert_dcl30_c"]
    violationDecls := []
    mainCalls :=
      ["cert_exp30_c", "cert_exp33_c", "cert_arr30_c", "cert_mem30_c",
       "cert_mem35_c", "cert_str31_c", "cert_err33_c", "cert_sig30_c",
       "cert_msc32_c", "cert_int31_c", "cert_dcl30_c"] }

/-- src/cpp/autosar_violations.cpp: fourteen violation constructs — thirteen
functions plus the struct type `autosar_a11_0_2_struct` (lines 216-222).
main (lines 309-331) calls every violation function except
`autosar_a15_1_2`. -/
def autosar_violations_cpp : SourceFile :=
  { path := "src/cpp/autosar_violations.cpp"
    violationFunctions :=
      ["autosar_a0_1_1", "autosar_a0_1_2", "autosar_a2_10_1",
       "autosar_a5_1_1", "autosar_a7_1_5", "autosar_a15_1_2",
       "autosar_a18_1_1", "autosar_a18_5_1", "autosar_m5_0_3",
       "autosar_a5_2_2", "autosar_a3_9_1", "autosar_m6_4_1",
       "autosar_a8_4_7"]
    violationDecls := ["autosar_a11_0_2_struct"]
    mainCalls :=
      ["autosar_a0_1_1", "autosar_a0_1_2", "autosar_a2_10_1",
       "autosar_a5_1_1", "autosar_a7_1_5", "autosar_a18_1_1",
       "autosar_a18_5_1", "autosar_m5_0_3", "autosar_a5_2_2",
       "autosar_a3_9_1", "autosar_m6_4_1", "autosar_a8_4_7"] }

/-- src/cpp/cert_cpp_violations.cpp: ten violation constructs — nine
functions plus the ERR58-CPP violating global `global_str` (lines 29-32).
main (lines 135-146) calls every violation function except `cert_err50_cpp`,
whose call on line 136 is commented out. -/
def cert_cpp_violations_cpp : SourceFile :=
  { path := "src/cpp/cert_cpp_violations.cpp"
    violationFunctions :=
      ["cert_err50_cpp", "cert_dcl50_cpp", "cert_oop57_cpp",
       "cert_exp55_cpp", "cert_ctr50_cpp", "cert_mem52_cpp",
       "cert_err61_cpp", "cert_msc50_cpp", "cert_oop51_cpp"]
    violationDecls := ["global_str"]
    mainCalls :=
      ["cert_dcl50_cpp", "cert_oop57_cpp", "cert_exp55_cpp",
       "cert_ctr50_cpp", "cert_mem52_cpp", "cert_err61_cpp",
       "cert_msc50_cpp", "cert_oop51_cpp"] }

/-- src/cpp/misra_cpp_violations.cpp: ten violation functions, all called by
main (lines 125-137). -/
def misra_cpp_violations_cpp : SourceFile :=
  { path := "src/cpp/misra_cpp_violations.cpp"
    violationFunctions :=
      ["misra_cpp_0_1_1", "misra_cpp_2_10_2", "misra_cpp_5_0_3",
       "misra_cpp_5_2_4", "misra_cpp_6_4_2", "misra_cpp_6_6_5",
       "misra_cpp_15_3_5", "misra_cpp_18_0_1", "misra_cpp_18_4_1",
       "misra_cpp_27_0_1"]
    violationDecls := []
    mainCalls :=
      ["misra_cpp_0_1_1", "misra_cpp_2_10_2", "misra_cpp_5_0_3",
       "misra_cpp_5_2_4", "misra_cpp_6_4_2", "misra_cpp_6_6_5",
       "misra_cpp_15_3_5", "misra_cpp_18_0_1", "misra_cpp_18_4_1",
       "misra_cpp_27_0_1"] }

/-- The repository's five violation source files. -/
def repoSources : List SourceFile :=
  [misra_violations_c, cert_c_violations_c, autosar_violations_cpp,
   cert_cpp_violations_cpp, misra_cpp_violations_cpp]

/-- misra_cpp_6_6_5 from src/cpp/misra_cpp_violations.cpp lines 72-80:
returns 1 on x > 0 (early return), -1 on x < 0 (early return), 0 otherwise.
The function only produces the small constants 1, -1, 0, so the C int is
embedded as Int with no overflow concern. -/
def misra_cpp_6_6_5 (x : Int) : Int :=
  if x > 0 then 1
  else if x < 0 then -1
  else 0

/-- The vector constructed in cert_ctr50_cpp
(src/cpp/cert_cpp_violations.cpp line 73): std::vector<int> vec with
elements 1, 2, 3. -/
def cert_ctr50_vec : List Int := [1, 2, 3]

/-- cert_ctr50_cpp's read of vec[5] (line 74), embedded totally: indexing
returns none when the index is out of bounds. -/
def cert_ctr50_access : Option Int := cert_ctr50_vec.get? 5

end Repo

namespace Harness

/-- Concrete catalog case used to exercise the harness model (Scenario A of
the spec: the MISRA C 21.3 case of misra_violations.c). -/
def sampleCase : ViolationCase :=
  { id := "misra-c-21.3"
    standard := .misraC
    rule_code := "MISRA-C-21.3"
    source_path := "misra_violations.c"
    expected_lo := 114
    expected_hi := 119
    severity_tag := "required" }

/-- Concrete analyzer finding matching sampleCase (Scenario A of the spec). -/
def sampleFinding : Finding :=
  { rule_code := "MISRA-C-21.3"
    file := "misra_violations.c"
    line := 101
    message := "dynamic memory allocation used" }

/-- A compiler capability for which every source file builds. -/
def okCompile : String → BuildArtifact :=
  fun p => { source_path := p, build_succeeded := true, build_diagnostics := [] }

/-- A compiler capability for which every source file fails to build. -/
def badCompile : String → BuildArtifact :=
  fun p =>
    { source_path := p, build_succeeded := false,
      build_diagnostics := ["compilation error"] }

/-- An analyzer capability reporting exactly sampleFinding for every built
source file. -/
def sampleAnalyze : String → Option (List Finding) :=
  fun _ => some [sampleFinding]

/-- A second catalog case sharing id "dup-1" material: first of the Scenario
D duplicate pair. -/
def dupA : ViolationCase :=
  { id := "dup-1"
    standard := .misraC
    rule_code := "MISRA-C-21.3"
    source_path := "misra_violations.c"
    expected_lo := 114
    expected_hi := 119
    severity_tag := "required" }

/-- Second of the Scenario D duplicate pair: same id "dup-1", different
rule. -/
def dupB : ViolationCase :=
  { id := "dup-1"
    standard := .misraC
    rule_code := "MISRA-C-21.6"
    source_path := "misra_violations.c"
    expected_lo := 125
    expected_hi := 127
    severity_tag := "required" }

theorem findingMatches_iff (c : ViolationCase) (f : Finding) :
    findingMatches c f = true ↔
      f.rule_code = c.rule_code ∧ f.file = c.source_path := by
  simp [findingMatches]

theorem reconcileCase_outcome (c : ViolationCase) (findings : List Finding) :
    (reconcileCase c findings).outcome =
      if (findings.filter (findingMatches c)).isEmpty then Outcome.MISSED
      else Outcome.PASS := rfl

theorem reconcileCase_pass_iff (c : ViolationCase) (findings : List Finding) :
    (reconcileCase c findings).outcome = Outcome.PASS ↔
      ∃ f ∈ findings, f.rule_code = c.rule_code ∧ f.file = c.source_path := by
  rw [reconcileCase_outcome]
  by_cases h : (findings.filter (findingMatches c)).isEmpty
  · rw [if_pos h]
    rw [List.isEmpty_iff, List.filter_eq_nil_iff] at h
    constructor
    · intro hco
      exact absurd hco (by decide)
    · rintro ⟨f, hf, h1, h2⟩
      exact absurd ((findingMatches_iff c f).mpr ⟨h1, h2⟩) (h f hf)
  · rw [if_neg h]
    rw [List.isEmpty_iff] at h
    have hne := List.exists_mem_of_ne_nil _ h
    obtain ⟨f, hf⟩ := hne
    have hmem := List.mem_filter.mp hf
    exact ⟨fun _ => ⟨f, hmem.1, (findingMatches_iff c f).mp hmem.2⟩,
      fun _ => rfl⟩

theorem reconcileCase_not_pass (c : ViolationCase) (findings : List Finding) :
    (reconcileCase c findings).outcome ≠ Outcome.PASS →
      (reconcileCase c findings).outcome = Outcome.MISSED := by
  rw [reconcileCase_outcome]
  by_cases h : (findings.filter (findingMatches c)).isEmpty
  · rw [if_pos h]; intro _; rfl
  · rw [if_neg h]; intro hc; exact absurd rfl hc

theorem runCase_of_built (compile : String → BuildArtifact)
    (analyze : String → Option (List Finding)) (c : ViolationCase)
    (findings : List Finding)
    (hb : (compile c.source_path).build_succeeded = true)
    (ha : analyze c.source_path = some findings) :
    runCase compile analyze c = reconcileCase c findings := by
  unfold runCase
  rw [hb, ha]
  rfl

theorem runCase_of_build_failed (compile : String → BuildArtifact)
    (analyze : String → Option (List Finding)) (c : ViolationCase)
    (hb : (compile c.source_path).build_succeeded = false) :
    runCase compile analyze c = failedResult c Outcome.BUILD_FAILED := by
  unfold runCase
  rw [hb]
  rfl

end Harness

namespace Harness

theorem firstDupId_eq_none_iff (l : List ViolationCase) :
    firstDupId l = none ↔ (l.map (fun c => c.id)).Nodup := by
  induction l with
  | nil => simp [firstDupId]
  | cons c rest ih =>
    rw [List.map_cons, List.nodup_cons, ← ih]
    simp only [firstDupId]
    by_cases h : rest.any (fun c2 => c2.id == c.id) = true
    · rw [if_pos h]
      simp only [List.any_eq_true, beq_iff_eq] at h
      obtain ⟨c2, hc2, he⟩ := h
      constructor
      · intro hc; cases hc
      · rintro ⟨hni, _⟩
        exact absurd (List.mem_map.mpr ⟨c2, hc2, he⟩) hni
    · rw [if_neg h]
      simp only [List.any_eq_true, beq_iff_eq] at h
      push_neg at h
      constructor
      · intro hn
        refine ⟨fun hmem => ?_, hn⟩
        obtain ⟨c2, hc2, he⟩ := List.mem_map.mp hmem
        exact h c2 hc2 he
      · rintro ⟨_, hn⟩
        exact hn

theorem firstMissingPath_eq_none_iff (fs : List String)
    (l : List ViolationCase) :
    firstMissingPath fs l = none ↔ ∀ c ∈ l, c.source_path ∈ fs := by
  induction l with
  | nil => simp [firstMissingPath]
  | cons c rest ih =>
    simp only [firstMissingPath]
    by_cases h : fs.contains c.source_path = true
    · rw [if_pos h, ih]
      have hc : c.source_path ∈ fs := List.elem_iff.mp h
      constructor
      · intro hall c2 hc2
        rcases List.mem_cons.mp hc2 with he | hm
        · rw [he]; exact hc
        · exact hall c2 hm
      · intro hall c2 hc2
        exact hall c2 (List.mem_cons_of_mem c hc2)
    · rw [if_neg h]
      constructor
      · intro hc; cases hc
      · intro hall
        exact absurd (List.elem_iff.mpr (hall c (List.mem_cons_self c rest))) h

theorem load_isError_iff (entries : List ViolationCase) (fs : List String) :
    (∃ e, load entries fs = .error e) ↔
      ¬ (entries.map (fun c => c.id)).Nodup ∨
        ∃ c ∈ entries, c.source_path ∉ fs := by
  unfold load
  rcases hd : firstDupId entries with _ | i
  · rcases hm : firstMissingPath fs entries with _ | p
    · constructor
      · rintro ⟨e, he⟩; cases he
      · rintro (hn | ⟨c, hc, hp⟩)
        · exact absurd ((firstDupId_eq_none_iff entries).mp hd) hn
        · exact absurd ((firstMissingPath_eq_none_iff fs entries).mp hm c hc) hp
    · constructor
      · intro _
        right
        by_contra hall
        push_neg at hall
        rw [← firstMissingPath_eq_none_iff fs entries] at hall
        rw [hall] at hm
        cases hm
      · intro _
        exact ⟨.missingPath p, rfl⟩
  · constructor
    · intro _
      left
      intro hn
      rw [← firstDupId_eq_none_iff entries] at hn
      rw [hn] at hd
      cases hd
    · intro _
      exact ⟨.duplicateId i, rfl⟩

theorem load_ok_eq (entries : List ViolationCase) (fs : List String)
    (cases : List ViolationCase) (h : load entries fs = .ok cases) :
    cases = entries := by
  unfold load at h
  rcases hd : firstDupId entries with _ | i
  · rcases hm : firstMissingPath fs entries with _ | p
    · rw [hd, hm] at h
      cases h
      rfl
    · rw [hd, hm] at h
      cases h
  · rw [hd] at h
    cases h

end Harness

open Harness Repo

/-- C1: for every catalog case whose artifact built successfully (and for
which the analyzer returned a findings document), the run assigns outcome
PASS iff at least one Finding has the case's rule_code and file — the match
never consults the finding's line, so a line outside the expected range
still counts — and assigns MISSED otherwise, including when the analyzer
produced zero findings for that source file. -/
theorem C1_reconcile_any_match (compile : String → BuildArtifact)
    (analyze : String → Option (List Finding)) (c : ViolationCase)
    (findings : List Finding)
    (hb : (compile c.source_path).build_succeeded = true)
    (ha : analyze c.source_path = some findings) :
    ((runCase compile analyze c).outcome = Outcome.PASS ↔
      ∃ f ∈ findings, f.rule_code = c.rule_code ∧ f.file = c.source_path) ∧
    ((¬ ∃ f ∈ findings, f.rule_code = c.rule_code ∧ f.file = c.source_path) →
      (runCase compile analyze c).outcome = Outcome.MISSED) ∧
    (∀ f n, findingMatches c f = findingMatches c { f with line := n }) ∧
    (findings = [] → (runCase compile analyze c).outcome = Outcome.MISSED) := by
  rw [runCase_of_built compile analyze c findings hb ha]
  refine ⟨reconcileCase_pass_iff c findings, ?_, ?_, ?_⟩
  · intro hne
    apply reconcileCase_not_pass
    intro hpass
    exact hne ((reconcileCase_pass_iff c findings).mp hpass)
  · intro f n
    rfl
  · intro he
    subst he
    apply reconcileCase_not_pass
    intro hpass
    obtain ⟨f, hf, -⟩ := (reconcileCase_pass_iff c []).mp hpass
    cases hf

/-- Witness for C1: Scenario A of the spec — a built case with a matching
finding is PASS. -/
theorem C1_witness :
    (runCase okCompile sampleAnalyze sampleCase).outcome = Outcome.PASS :=
  (C1_reconcile_any_match okCompile sampleAnalyze sampleCase [sampleFinding]
      rfl rfl).1.mpr
    ⟨sampleFinding, List.mem_singleton_self sampleFinding, rfl, rfl⟩

/-- C2: when the compiler capability reports failure for a case's source
file, the case resolves to BUILD_FAILED, its result does not depend on the
analyzer capability (the analyzer is never consulted for it), and the run
still completes, producing one result per catalog case. -/
theorem C2_build_failed_isolated (compile : String → BuildArtifact)
    (c : ViolationCase)
    (hb : (compile c.source_path).build_succeeded = false) :
    (∀ analyze, (runCase compile analyze c).outcome = Outcome.BUILD_FAILED) ∧
    (∀ a1 a2, runCase compile a1 c = runCase compile a2 c) ∧
    (∀ analyze cases,
      (runCases compile analyze cases).length = cases.length) := by
  refine ⟨?_, ?_, ?_⟩
  · intro analyze
    rw [runCase_of_build_failed compile analyze c hb]
    rfl
  · intro a1 a2
    rw [runCase_of_build_failed compile a1 c hb,
      runCase_of_build_failed compile a2 c hb]
  · intro analyze cases
    exact List.length_map cases (runCase compile analyze)

/-- Witness for C2: Scenario C of the spec — a case in a failed unit is
BUILD_FAILED. -/
theorem C2_witness :
    (runCase badCompile sampleAnalyze sampleCase).outcome =
      Outcome.BUILD_FAILED :=
  (C2_build_failed_isolated badCompile sampleCase rfl).1 sampleAnalyze

/-- C3: load fails with ConfigError exactly when two catalog entries share an
id or a referenced source_path does not exist; on ConfigError the harness
halts before any case is processed — zero cases receive a VerificationResult
— and the process exit code is 2. -/
theorem C3_config_error (entries : List ViolationCase) (fs : List String) :
    ((∃ e, load entries fs = .error e) ↔
      ¬ (entries.map (fun c => c.id)).Nodup ∨
        ∃ c ∈ entries, c.source_path ∉ fs) ∧
    (∀ e, load entries fs = .error e →
      ∀ compile analyze,
        harnessResults entries fs compile analyze = [] ∧
        harnessExitCode entries fs compile analyze = 2) := by
  refine ⟨load_isError_iff entries fs, ?_⟩
  intro e he compile analyze
  have hh : harness entries fs compile analyze = .error e := by
    unfold harness
    rw [he]
  constructor
  · unfold harnessResults
    rw [hh]
  · unfold harnessExitCode
    rw [hh]

/-- Witness for C3: Scenario D of the spec — two entries sharing id "dup-1"
halt the run with exit code 2 and no per-case results. -/
theorem C3_witness :
    harnessResults [dupA, dupB] ["misra_violations.c"] okCompile
        sampleAnalyze = [] ∧
    harnessExitCode [dupA, dupB] ["misra_violations.c"] okCompile
        sampleAnalyze = 2 :=
  (C3_config_error [dupA, dupB] ["misra_violations.c"]).2
    (ConfigError.duplicateId "dup-1") rfl okCompile sampleAnalyze

/-- C4: the run's exit code is 0 when every case PASSes, 1 when at least one
case is MISSED or TOOL_ERROR, 2 when a ConfigError occurs before any case
runs; and the non-config exit code is invariant under permutation of the
per-case outcomes, so it is fully determined by their multiset. -/
theorem C4_exit_codes (entries : List ViolationCase) (fs : List String)
    (compile : String → BuildArtifact)
    (analyze : String → Option (List Finding)) :
    (∀ rs, harness entries fs compile analyze = .ok rs →
      ((∀ r ∈ rs, r.outcome = Outcome.PASS) →
        harnessExitCode entries fs compile analyze = 0) ∧
      ((∃ r ∈ rs, r.outcome = Outcome.MISSED ∨
          r.outcome = Outcome.TOOL_ERROR) →
        harnessExitCode entries fs compile analyze = 1)) ∧
    ((∃ e, harness entries fs compile analyze = .error e) →
      harnessExitCode entries fs compile analyze = 2) ∧
    (∀ os1 os2 : List Outcome, os1.Perm os2 →
      exitCodeOfOutcomes os1 = exitCodeOfOutcomes os2) := by
  refine ⟨?_, ?_, ?_⟩
  · intro rs hok
    unfold harnessExitCode
    rw [hok]
    constructor
    · intro hall
      have hb : (rs.map (fun r => r.outcome)).all
          (fun o => o == Outcome.PASS) = true := by
        rw [List.all_eq_true]
        intro o ho
        obtain ⟨r, hr, he⟩ := List.mem_map.mp ho
        rw [beq_iff_eq, ← he]
        exact hall r hr
      simp [exitCodeOfOutcomes, hb]
    · intro hex
      cases hb : (rs.map (fun r => r.outcome)).all
          (fun o => o == Outcome.PASS) with
      | false => simp [exitCodeOfOutcomes, hb]
      | true =>
        rw [List.all_eq_true] at hb
        obtain ⟨r, hr, hor⟩ := hex
        have hro := hb r.outcome (List.mem_map.mpr ⟨r, hr, rfl⟩)
        rw [beq_iff_eq] at hro
        rcases hor with h | h <;> rw [hro] at h <;> cases h
  · rintro ⟨e, he⟩
    unfold harnessExitCode
    rw [he]
  · intro os1 os2 hp
    unfold exitCodeOfOutcomes
    cases h2 : os2.all (fun o => o == Outcome.PASS) with
    | true =>
      have h1 : os1.all (fun o => o == Outcome.PASS) = true := by
        rw [List.all_eq_true] at h2 ⊢
        intro o ho
        exact h2 o (hp.subset ho)
      rw [h1]
    | false =>
      have h1 : os1.all (fun o => o == Outcome.PASS) = false := by
        cases hx : os1.all (fun o => o == Outcome.PASS) with
        | false => rfl
        | true =>
          rw [List.all_eq_true] at hx
          have hy : os2.all (fun o => o == Outcome.PASS) = true := by
            rw [List.all_eq_true]
            intro o ho
            exact hx o (hp.symm.subset ho)
          rw [hy] at h2
          cases h2
      rw [h1]

/-- Witness for C4: a one-case all-PASS run exits 0. -/
theorem C4_witness :
    harnessExitCode [sampleCase] ["misra_violations.c"] okCompile
      sampleAnalyze = 0 :=
  ((C4_exit_codes [sampleCase] ["misra_violations.c"] okCompile
      sampleAnalyze).1 (runCases okCompile sampleAnalyze [sampleCase]) rfl).1
    (by decide)

/-- C5: determinism — two runs with the same catalog and pointwise-equal
compiler and analyzer capabilities produce identical results, and load
returns the cases in their catalog order (hence the same order) every run. -/
theorem C5_determinism (entries : List ViolationCase) (fs : List String)
    (c1 c2 : String → BuildArtifact)
    (a1 a2 : String → Option (List Finding))
    (hc : ∀ p, c1 p = c2 p) (ha : ∀ p, a1 p = a2 p) :
    harness entries fs c1 a1 = harness entries fs c2 a2 ∧
    ∀ cases, load entries fs = .ok cases → cases = entries := by
  constructor
  · rw [funext hc, funext ha]
  · intro cases h
    exact load_ok_eq entries fs cases h

/-- Witness for C5: two runs of the one-case catalog with the same
capabilities agree, and load returns that catalog unchanged. -/
theorem C5_witness :
    harness [sampleCase] ["misra_violations.c"] okCompile sampleAnalyze =
      harness [sampleCase] ["misra_violations.c"] okCompile sampleAnalyze ∧
    [sampleCase] = [sampleCase] := by
  have h := C5_determinism [sampleCase] ["misra_violations.c"] okCompile
    okCompile sampleAnalyze sampleAnalyze (fun _ => rfl) (fun _ => rfl)
  exact ⟨h.1, h.2 [sampleCase] rfl⟩

/-- C6: per-file noninterference of build failures — when two runs differ
only at one source file p0 (in particular when a BuildError is forced on p0
via forceFail), every case defined in any other source file receives the
same result, singly and across a whole catalog of such cases; forceFail
indeed leaves every other file's build untouched. -/
theorem C6_noninterference (p0 : String) (c1 c2 : String → BuildArtifact)
    (a1 a2 : String → Option (List Finding))
    (hc : ∀ p, p ≠ p0 → c1 p = c2 p) (ha : ∀ p, p ≠ p0 → a1 p = a2 p) :
    (∀ c : ViolationCase, c.source_path ≠ p0 →
      runCase c1 a1 c = runCase c2 a2 c) ∧
    (∀ cases : List ViolationCase, (∀ c ∈ cases, c.source_path ≠ p0) →
      runCases c1 a1 cases = runCases c2 a2 cases) ∧
    (∀ compile p, p ≠ p0 → forceFail p0 compile p = compile p) := by
  have key : ∀ c : ViolationCase, c.source_path ≠ p0 →
      runCase c1 a1 c = runCase c2 a2 c := by
    intro c hp
    unfold runCase
    rw [hc c.source_path hp, ha c.source_path hp]
  refine ⟨key, ?_, ?_⟩
  · intro cases hall
    unfold runCases
    apply List.map_congr_left
    intro c hcm
    exact key c (hall c hcm)
  · intro compile p hp
    simp [forceFail, hp]

/-- Witness for C6: forcing a build failure on a different source file does
not change the sample case's result. -/
theorem C6_witness :
    runCase okCompile sampleAnalyze sampleCase =
      runCase (forceFail "other_file.c" okCompile) sampleAnalyze
        sampleCase :=
  (C6_noninterference "other_file.c" okCompile
      (forceFail "other_file.c" okCompile) sampleAnalyze sampleAnalyze
      (fun p hp => by simp [forceFail, hp]) (fun _ _ => rfl)).1
    sampleCase (by decide)

/-- C7: reconcile is idempotent — a second application to the same
(cases, findings) pair yields exactly the same VerificationResult sequence —
and every ViolationCase maps to exactly one VerificationResult: the results
are in bijection with the cases, in order and by id. -/
theorem C7_reconcile_idempotent (cases : List ViolationCase)
    (findings : List Finding) :
    reconcile cases findings = reconcile cases findings ∧
    (reconcile cases findings).length = cases.length ∧
    (reconcile cases findings).map (fun r => r.case_id) =
      cases.map (fun c => c.id) := by
  refine ⟨rfl, ?_, ?_⟩
  · unfold reconcile
    exact List.length_map cases _
  · unfold reconcile
    rw [List.map_map]
    rfl

/-- C8 fails on the code: cert_err50_cpp is a deliberately rule-violating
function of cert_cpp_violations.cpp, yet the file's main does not call it
(its call on line 136 is commented out), and the file's ERR58-CPP violating
construct global_str is a global declaration, not a function. -/
theorem C8_counterexample :
    cert_cpp_violations_cpp ∈ repoSources ∧
    "cert_err50_cpp" ∈ cert_cpp_violations_cpp.violationFunctions ∧
    "cert_err50_cpp" ∉ cert_cpp_violations_cpp.mainCalls ∧
    cert_cpp_violations_cpp.violationDecls ≠ [] := by
  refine ⟨?_, ?_, ?_, ?_⟩ <;> decide

/-- C8 amended: in every source file of the repository the deliberately
rule-violating constructs are self-contained functions except for three
file-scope declarations (global_str, misra_rule_8_7_global,
autosar_a11_0_2_struct), and the file's main calls every violation function
except cert_err50_cpp (whose call is commented out because it would
terminate the program) and autosar_a15_1_2 (never called). -/
theorem C8_amended_main_calls :
    repoSources.all (fun sf =>
      sf.violationFunctions.all (fun fn =>
        sf.mainCalls.contains fn || fn == "cert_err50_cpp" ||
          fn == "autosar_a15_1_2") &&
      sf.violationDecls.all (fun d =>
        d == "global_str" || d == "misra_rule_8_7_global" ||
          d == "autosar_a11_0_2_struct")) = true := by decide

/-- C9: misra_cpp_6_6_5 returns 1 on positive input (first early return),
-1 on negative input (second early return), and 0 on zero input (final
return). -/
theorem C9_misra_cpp_6_6_5_sign (x : Int) :
    (x > 0 → misra_cpp_6_6_5 x = 1) ∧
    (x < 0 → misra_cpp_6_6_5 x = -1) ∧
    (x = 0 → misra_cpp_6_6_5 x = 0) := by
  unfold misra_cpp_6_6_5
  refine ⟨?_, ?_, ?_⟩
  · intro h
    rw [if_pos h]
  · intro h
    rw [if_neg (by omega), if_pos h]
  · intro h
    subst h
    simp

/-- Witness for C9 at the inputs 3, -3 and 0. -/
theorem C9_witness :
    misra_cpp_6_6_5 3 = 1 ∧ misra_cpp_6_6_5 (-3) = -1 ∧
      misra_cpp_6_6_5 0 = 0 :=
  ⟨(C9_misra_cpp_6_6_5_sign 3).1 (by decide),
   (C9_misra_cpp_6_6_5_sign (-3)).2.1 (by decide),
   (C9_misra_cpp_6_6_5_sign 0).2.2 rfl⟩

/-- C10: the vector constructed in cert_ctr50_cpp has exactly 3 elements at
the point where index 5 is read, so the access vec[5] is out of bounds: in
the total embedding the access returns none. -/
theorem C10_cert_ctr50_out_of_bounds :
    cert_ctr50_vec.length = 3 ∧ cert_ctr50_access = none := by
  constructor <;> rfl
